import Mathlib

/-!
Verification of the ChatGPT Reservations Manager server (Express + MCP).

The development shallowly embeds the OAuth 2.0 token/authorize endpoints
(`server/src/index.ts`), the MCP dispatcher fragments (`server/src/index.ts`,
`server/src/mcp-server.ts`) and the calendar service
(`server/src/calendar-service.ts`).  JavaScript truthiness (`!x`, `x || y`)
is modelled explicitly; optional / possibly-undefined values are `Option`.
External collaborators (the Google Calendar API, the filesystem, base64
decoding, token generation) are passed as explicit function parameters.
A few functions live in `mcp-oauth.ts` / `google-auth.ts`, which are not
among the provided sources; those are modelled from the specification and
are marked as such in their doc comments.
-/

/-! ## JavaScript truthiness helpers -/

/-- Truthiness of a possibly-undefined JS string: `undefined` and `""` are falsy. -/
def jsTruthyStr : Option String → Bool
  | none => false
  | some s => s ≠ ""

/-- JS `a || b` where `a` is a possibly-undefined string and `b` a string default. -/
def jsOrStr (a : Option String) (b : String) : String :=
  match a with
  | none => b
  | some s => if s = "" then b else s

/-- JS `a || b` on two possibly-undefined strings. -/
def jsOrOpt (a b : Option String) : Option String :=
  if jsTruthyStr a then a else b

/-- JS `x || null` on a possibly-undefined string: falsy collapses to `null`. -/
def jsOrNullStr (a : Option String) : Option String :=
  if jsTruthyStr a then a else none

/-- A JSON primitive value, used for JSON-RPC request identifiers. -/
inductive JVal where
  | null
  | num (n : Int)
  | str (s : String)
  | bool (b : Bool)
deriving Repr, DecidableEq

/-- JS truthiness of a JSON primitive: `null`, `0`, `""` and `false` are falsy. -/
def jsTruthy : JVal → Bool
  | .null => false
  | .num n => n ≠ 0
  | .str s => s ≠ ""
  | .bool b => b

/-- JS `id || null` on a possibly-absent JSON value. -/
def jsOrNull (id : Option JVal) : JVal :=
  match id with
  | none => .null
  | some v => if jsTruthy v then v else .null

/-! ## Character-level string operations

Kernel-computable counterparts of the JS string operations used by the
server (`slice`, `startsWith`, `endsWith`, `includes`, `toLowerCase`,
`split`); they operate on the character list underlying a `String`. -/

/-- JS `s.slice(n)`. -/
def strDrop (s : String) (n : Nat) : String := ⟨s.data.drop n⟩

/-- JS `s.startsWith(p)`. -/
def strStartsWith (s p : String) : Bool := p.data.isPrefixOf s.data

/-- JS `s.endsWith(p)`. -/
def strEndsWith (s p : String) : Bool := p.data.isSuffixOf s.data

/-- JS `s.length` (character count; identical for the ASCII data at hand). -/
def strLength (s : String) : Nat := s.data.length

/-- JS `s.includes(c)` for a single character. -/
def strContainsChar (s : String) (c : Char) : Bool := s.data.contains c

/-- JS `s.toLowerCase()`. -/
def strToLower (s : String) : String := ⟨s.data.map Char.toLower⟩

/-- Lexicographic comparison of character lists. -/
def charListLe : List Char → List Char → Bool
  | [], _ => true
  | _ :: _, [] => false
  | a :: as, b :: bs => if a = b then charListLe as bs else decide (a < b)

/-- Lexicographic `a ≤ b` on strings (the order of JS string comparison,
restricted to the code points at hand). -/
def strLe (a b : String) : Bool := charListLe a.data b.data

/-- Split a character list on a nonempty separator, keeping empty pieces,
as JS `split`.  The first argument is recursion fuel (the list length). -/
def splitOnAux (sep : List Char) : Nat → List Char → List Char → List (List Char)
  | 0, s, acc => [acc.reverse ++ s]
  | _ + 1, [], acc => [acc.reverse]
  | fuel + 1, c :: rest, acc =>
    if sep.isPrefixOf (c :: rest) then
      acc.reverse :: splitOnAux sep fuel (List.drop sep.length (c :: rest)) []
    else
      splitOnAux sep fuel rest (c :: acc)

/-- JS `s.split(sep)` for a nonempty separator. -/
def splitOnChars (sep : List Char) (s : List Char) : List (List Char) :=
  splitOnAux sep s.length s []

/-! ## OAuth authorization-code registry

`validateAuthorizationCode` lives in `mcp-oauth.ts`, which is not among the
provided sources; it is modelled from the specification (§3 AuthorizationCode,
§4.1 `consumeAuthorizationCode`). -/

/-- An authorization-code record (spec §3 "AuthorizationCode"). -/
structure AuthCodeRecord where
  clientId : String
  redirectUri : String
  codeChallenge : Option String
  codeChallengeMethod : Option String
  scope : Option String
  issuedAt : Nat
  expiresAt : Nat
  consumed : Bool
deriving Repr, DecidableEq

/-- The live-code registry: a map from opaque code to its record. -/
def CodeStore : Type := String → Option AuthCodeRecord

/-- Modelled from the spec: the per-record checks of `consumeAuthorizationCode`
(§4.1): not expired, not already consumed, `clientId` matches, `redirectUri`
matches exactly, and if a challenge was stored the presented verifier must
transform to it.  `none` means all checks pass; `some e` carries the failure
reason.  The PKCE S256 transform is an explicit parameter. -/
def consumeCheck (transform : String → String) (now : Nat)
    (clientId redirectUri : String) (codeVerifier : Option String)
    (r : AuthCodeRecord) : Option String :=
  if r.expiresAt ≤ now then some "Authorization code has expired"
  else if r.consumed then some "Authorization code has already been used"
  else if r.clientId ≠ clientId then some "Client mismatch"
  else if r.redirectUri ≠ redirectUri then some "Redirect URI mismatch"
  else
    match r.codeChallenge with
    | none => none
    | some challenge =>
      match codeVerifier with
      | none => some "Missing code verifier"
      | some v => if transform v = challenge then none else some "PKCE verification failed"

/-- Mark one code consumed in the store, leaving every other code untouched. -/
def markConsumed (store : CodeStore) (code : String) (r : AuthCodeRecord) : CodeStore :=
  fun c => if c = code then some { r with consumed := true } else store c

/-- Result of a code-consumption attempt (§4.1: `{valid} | {valid:false, reason}`). -/
structure ConsumeResult where
  valid : Bool
  reason : Option String
deriving Repr, DecidableEq

/-- Modelled from the spec: `validateAuthorizationCode` of `mcp-oauth.ts`
(not among the provided sources), per §4.1 `consumeAuthorizationCode`:
the code must exist and pass `consumeCheck`; on success the code is marked
consumed in the returned store (single use). -/
def validateAuthorizationCode (store : CodeStore) (transform : String → String)
    (now : Nat) (code clientId redirectUri : String) (codeVerifier : Option String) :
    ConsumeResult × CodeStore :=
  match store code with
  | none => ({ valid := false, reason := some "Invalid authorization code" }, store)
  | some r =>
    match consumeCheck transform now clientId redirectUri codeVerifier r with
    | some e => ({ valid := false, reason := some e }, store)
    | none => ({ valid := true, reason := none }, markConsumed store code r)

/-! ## POST /oauth/token (`server/src/index.ts` lines 352–432) -/

/-- Split a decoded `Basic` credential string on `:` as JS
`credentials.split(':')` destructured into its first two parts. -/
def splitBasicCredentials (credentials : String) : Option String × Option String :=
  let parts := (splitOnChars [':'] credentials.data).map String.mk
  (parts.get? 0, parts.get? 1)

/-- The credential-merging prelude of `app.post('/oauth/token')`
(`index.ts` lines 355–366): start from the body's `client_id` /
`client_secret`; if an `Authorization: Basic` header is present, JS-or each
with the header-derived value.  Base64 decoding is an explicit parameter. -/
def mergeBasicCredentials (bodyClientId bodyClientSecret : Option String)
    (authHeader : Option String) (decodeBase64 : String → String) :
    Option String × Option String :=
  match authHeader with
  | none => (bodyClientId, bodyClientSecret)
  | some h =>
    if strStartsWith h "Basic " then
      let credentials := decodeBase64 (strDrop h 6)
      (jsOrOpt bodyClientId (splitBasicCredentials credentials).1,
       jsOrOpt bodyClientSecret (splitBasicCredentials credentials).2)
    else
      (bodyClientId, bodyClientSecret)

/-- Outcome of the token endpoint: an OAuth error with HTTP status, error code
and description, or a successful token response. -/
inductive TokenEndpointResult where
  | errorResp (status : Nat) (err : String) (desc : String)
  | tokenResp (accessToken : String)
deriving Repr, DecidableEq

/-- The `grant_type=authorization_code` branch of `app.post('/oauth/token')`
(`index.ts` lines 369–406): require a truthy `code` and `redirect_uri`,
delegate to `validateAuthorizationCode` with `authClientId || ''`, answer
`invalid_grant` on failure and a fresh token on success.  Token generation
(`generateAccessToken`, in `mcp-oauth.ts`) is an explicit parameter. -/
def oauthTokenAuthCode (store : CodeStore) (transform : String → String) (now : Nat)
    (authClientId : Option String) (code redirectUri codeVerifier : Option String)
    (genToken : String → String) : TokenEndpointResult × CodeStore :=
  if jsTruthyStr code = false then
    (.errorResp 400 "invalid_request" "Missing authorization code", store)
  else if jsTruthyStr redirectUri = false then
    (.errorResp 400 "invalid_request" "Missing redirect_uri", store)
  else
    let vr := validateAuthorizationCode store transform now (code.getD "")
      (jsOrStr authClientId "") (redirectUri.getD "") codeVerifier
    if vr.1.valid then
      (.tokenResp (genToken (jsOrStr authClientId "chatgpt")), vr.2)
    else
      (.errorResp 400 "invalid_grant" (jsOrStr vr.1.reason "Invalid authorization code"), vr.2)

/-! ## GET /oauth/authorize (`server/src/index.ts` lines 295–347) -/

/-- Query parameters of the authorize endpoint, each possibly absent. -/
structure AuthorizeQuery where
  client_id : Option String
  redirect_uri : Option String
  response_type : Option String
  state : Option String
  code_challenge : Option String
  code_challenge_method : Option String
  scope : Option String
deriving Repr, DecidableEq

/-- Outcome of the authorize endpoint: a 400 error, or a redirect to a base
URI with appended query parameters. -/
inductive AuthorizeResult where
  | errorResp (status : Nat) (err : String) (desc : String)
  | redirectResp (base : String) (queryParams : List (String × String))
deriving Repr, DecidableEq

/-- Modelled from the spec: `validateClientId` of `mcp-oauth.ts` (not among
the provided sources); §4.1: a client id is valid iff it is registered.
The registry is modelled as the list of registered client ids. -/
def validateClientId (registry : List String) (clientId : String) : Bool :=
  registry.contains clientId

/-- `app.get('/oauth/authorize')`: reject an absent/unknown `client_id`, a
`response_type` other than `"code"`, and an absent `redirect_uri`; otherwise
redirect to `redirect_uri` with the generated code set as the `code` query
parameter and, when `state` is truthy, `state` echoed.  The generated
authorization code (`generateAuthorizationCode`, in `mcp-oauth.ts`; per spec
§4.1 a fresh opaque code) is an explicit parameter. -/
def oauthAuthorize (registry : List String) (genCode : String) (q : AuthorizeQuery) :
    AuthorizeResult :=
  if (jsTruthyStr q.client_id && validateClientId registry (q.client_id.getD "")) = false then
    .errorResp 400 "invalid_client" "Unknown or invalid client_id"
  else if q.response_type ≠ some "code" then
    .errorResp 400 "unsupported_response_type" "Only \"code\" response type is supported"
  else if jsTruthyStr q.redirect_uri = false then
    .errorResp 400 "invalid_request" "redirect_uri is required"
  else
    .redirectResp (q.redirect_uri.getD "")
      ([("code", genCode)] ++ (if jsTruthyStr q.state then [("state", q.state.getD "")] else []))

/-! ## POST /mcp (`server/src/index.ts` lines 447–504) -/

/-- Modelled from the spec: `extractBearerToken` of `mcp-oauth.ts` (not among
the provided sources); §4.4: "Extract bearer token from the `Authorization`
header".  Returns the token following a `Bearer ` scheme marker. -/
def extractBearerToken (authHeader : Option String) : Option String :=
  match authHeader with
  | none => none
  | some h => if strStartsWith h "Bearer " then some (strDrop h 7) else none

/-- A successful JSON-RPC response envelope `{jsonrpc, result, id}`. -/
structure McpSuccessResponse (α : Type) where
  jsonrpc : String
  result : α
  id : JVal
deriving Repr, DecidableEq

/-- Outcome of a POST /mcp request.  `unauthorized` is the 401 challenge
(with the `WWW-Authenticate` header value), `badRequest` the -32600 missing
method error, `success` a result envelope and `handlerError` the -32603
envelope produced when the dispatched handler throws. -/
inductive McpOutcome (α : Type) where
  | unauthorized (status : Nat) (wwwAuthenticate : String) (errorCode : Int)
      (errorMessage : String) (idEcho : JVal)
  | badRequest (status : Nat) (errorCode : Int) (errorMessage : String) (idEcho : JVal)
  | success (response : McpSuccessResponse α)
  | handlerError (jsonrpc : String) (errorCode : Int) (errorMessage : String) (idEcho : JVal)
deriving Repr, DecidableEq

/-- The request id carried by each possible response. -/
def McpOutcome.idEchoOf {α : Type} : McpOutcome α → JVal
  | .unauthorized _ _ _ _ i => i
  | .badRequest _ _ _ i => i
  | .success r => r.id
  | .handlerError _ _ _ i => i

/-- `app.post('/mcp')`: extract the bearer token; a falsy or invalid token is
answered 401 with the RFC 9728 challenge header and JSON-RPC code -32001; a
falsy `method` is answered 400 with -32600; otherwise the request is given to
`handleMCPRequest` (the dispatcher, an explicit parameter) and its result or
thrown error is wrapped in an envelope whose `id` is `id || null`. -/
def mcpPost {α β : Type} (baseUrl : String) (validateAccessToken : String → Bool)
    (dispatcher : String → β → Except String α)
    (authHeader : Option String) (method : Option String) (params : β)
    (id : Option JVal) (jsonrpc : Option String) : McpOutcome α :=
  let token := extractBearerToken authHeader
  if (jsTruthyStr token && validateAccessToken (token.getD "")) = false then
    .unauthorized 401
      ("Bearer resource=\"" ++ baseUrl ++ "/mcp\", as_uri=\"" ++ baseUrl ++ "\"")
      (-32001) "Unauthorized: Invalid or missing access token" (jsOrNull id)
  else if jsTruthyStr method = false then
    .badRequest 400 (-32600) "Invalid request: missing method" (jsOrNull id)
  else
    match dispatcher (method.getD "") params with
    | .ok result => .success { jsonrpc := jsOrStr jsonrpc "2.0", result := result, id := jsOrNull id }
    | .error msg => .handlerError (jsOrStr jsonrpc "2.0") (-32603) msg (jsOrNull id)

/-! ## MCP dispatcher fragments (`server/src/mcp-server.ts`) -/

/-- Server identity (`SERVER_INFO` in `mcp-server.ts`). -/
structure ServerInfo where
  name : String
  version : String
deriving Repr, DecidableEq

/-- Result of the `initialize` lifecycle method. -/
structure InitializeResult where
  protocolVersion : String
  serverInfo : ServerInfo
  instructions : String
deriving Repr, DecidableEq

/-- The `initialize` case of `handleMCPRequest` (`mcp-server.ts` lines
454–472): the protocol version is `clientProtocolVersion || '2024-11-05'`. -/
def mcpInitialize (clientProtocolVersion : Option String) : InitializeResult :=
  { protocolVersion := jsOrStr clientProtocolVersion "2024-11-05",
    serverInfo := { name := "reservations-manager", version := "1.0.0" },
    instructions := "This server manages Google Calendar reservations. Use get_pending_reservations to list pending calendar invites (will prompt for authentication if needed), and respond_to_invite to accept/decline invitations." }

/-! ## Calendar service (`server/src/calendar-service.ts`) -/

/-- A Google Calendar event time: either a timed `dateTime` or an all-day `date`. -/
structure EventDateTime where
  dateTime : Option String
  date : Option String
deriving Repr, DecidableEq

/-- Result of `formatDateTime`. -/
structure FormattedDateTime where
  formatted : String
  isAllDay : Bool
deriving Repr, DecidableEq

/-- `formatDateTime` (`calendar-service.ts` lines 22–42): an all-day `date`
wins, then `dateTime`, else `"Unknown"`. -/
def formatDateTime (start : EventDateTime) : FormattedDateTime :=
  if jsTruthyStr start.date then { formatted := start.date.getD "", isAllDay := true }
  else if jsTruthyStr start.dateTime then { formatted := start.dateTime.getD "", isAllDay := false }
  else { formatted := "Unknown", isAllDay := false }

/-- An organizer record on an event. -/
structure EventPerson where
  email : Option String
  displayName : Option String
deriving Repr, DecidableEq

/-- An attendee entry on a Google Calendar event, all fields optional. -/
structure EventAttendee where
  email : Option String
  displayName : Option String
  responseStatus : Option String
  organizer : Option Bool
  self : Option Bool
deriving Repr, DecidableEq

/-- The fields of a Google Calendar `Schema$Event` used by the service.
The source field `end` is named `eventEnd` (`end` is reserved in Lean). -/
structure GCalEvent where
  id : Option String
  summary : Option String
  description : Option String
  location : Option String
  start : Option EventDateTime
  eventEnd : Option EventDateTime
  organizer : Option EventPerson
  attendees : Option (List EventAttendee)
  htmlLink : Option String
deriving Repr, DecidableEq

/-- The attendee-email comparison used both by `eventToPendingInvite` and
`respondToInvite`: `a.email?.toLowerCase() === userEmail.toLowerCase()`
(an absent email never matches). -/
def attendeeEmailMatches (userEmail : String) (a : EventAttendee) : Bool :=
  match a.email with
  | some e => strToLower e == strToLower userEmail
  | none => false

/-- An attendee entry inside a `PendingInvite`. -/
structure InviteAttendee where
  email : String
  name : Option String
  status : String
deriving Repr, DecidableEq

/-- The `PendingInvite` DTO. -/
structure PendingInvite where
  eventId : String
  summary : String
  description : Option String
  location : Option String
  startTime : String
  endTime : String
  isAllDay : Bool
  organizerEmail : String
  organizerName : Option String
  attendees : List InviteAttendee
  calendarLink : String
deriving Repr, DecidableEq

/-- `eventToPendingInvite` (`calendar-service.ts` lines 47–88): skip events
without id/summary, find the user among the attendees by case-insensitive
email, skip when absent, when the found entry is the organizer, or when its
response status is not `needsAction`; otherwise build the DTO. -/
def eventToPendingInvite (event : GCalEvent) (userEmail : String) : Option PendingInvite :=
  if (jsTruthyStr event.id && jsTruthyStr event.summary) = false then none
  else
    let attendees := event.attendees.getD []
    match attendees.find? (attendeeEmailMatches userEmail) with
    | none => none
    | some userAttendee =>
      if userAttendee.organizer.getD false then none
      else if userAttendee.responseStatus ≠ some "needsAction" then none
      else
        let startInfo := formatDateTime (event.start.getD { dateTime := none, date := none })
        let endInfo := formatDateTime (event.eventEnd.getD { dateTime := none, date := none })
        some {
          eventId := event.id.getD "",
          summary := event.summary.getD "",
          description := jsOrNullStr event.description,
          location := jsOrNullStr event.location,
          startTime := startInfo.formatted,
          endTime := endInfo.formatted,
          isAllDay := startInfo.isAllDay,
          organizerEmail := jsOrStr (event.organizer.bind EventPerson.email) "Unknown",
          organizerName := jsOrNullStr (event.organizer.bind EventPerson.displayName),
          attendees := attendees.map (fun a =>
            { email := jsOrStr a.email "Unknown",
              name := jsOrNullStr a.displayName,
              status := jsOrStr a.responseStatus "unknown" }),
          calendarLink := jsOrStr event.htmlLink "" }

/-- The filtering loop of `getPendingInvites` (`calendar-service.ts` lines
127–134): keep exactly the events `eventToPendingInvite` accepts, in order.
The fetched event list (the external `calendar.events.list` response) is the
input. -/
def pendingInvitesOf (events : List GCalEvent) (userEmail : String) : List PendingInvite :=
  events.filterMap (fun e => eventToPendingInvite e userEmail)

/-- The attendee rewrite of `respondToInvite` (`calendar-service.ts` lines
184–192): set `responseStatus` on every attendee whose email matches the
calling user's (case-insensitively), pass every other entry through. -/
def updatedAttendeesOf (attendees : List EventAttendee) (userEmail : String)
    (response : String) : List EventAttendee :=
  attendees.map (fun attendee =>
    if attendeeEmailMatches userEmail attendee then
      { attendee with responseStatus := some response }
    else attendee)

/-! ## Tool handlers (`server/src/mcp-server.ts`) -/

/-- Modelled from the spec: `getAuthUrl` of `google-auth.ts` (not among the
provided sources); §4.6 `getConsentUrl(userId) -> string` returns the URL at
which the end user starts calendar consent.  Modelled as the Google OAuth
consent endpoint carrying the user id. -/
def getAuthUrl (userId : String) : String :=
  "https://accounts.google.com/o/oauth2/v2/auth?state=" ++ userId

/-- The structured content of a tool response, a JSON object modelled as a
record of optional fields (absent field = not in the object). -/
structure SContent where
  error : Option String := none
  success : Option Bool := none
  authRequired : Option Bool := none
  authUrl : Option String := none
  response : Option String := none
  eventId : Option String := none
  message : Option String := none
  eventSummary : Option String := none
  invites : Option (List PendingInvite) := none
  dateRangeStart : Option String := none
  dateRangeEnd : Option String := none
  totalCount : Option Nat := none
  authenticated : Option Bool := none
  email : Option String := none
deriving Repr, DecidableEq

/-- An Apps SDK tool response.  The source's `content` array is always a
single text entry, modelled as `contentText`; `metaOutputTemplate` is the
`_meta['openai/outputTemplate']` value when present. -/
structure AppsToolResponse where
  contentText : String
  structuredContent : SContent
  metaOutputTemplate : Option String
  isError : Bool
deriving Repr, DecidableEq

/-- `RespondToInviteResponse` as constructed by `respondToInvite`. -/
structure RespondToInviteResponse where
  success : Bool
  message : String
  eventId : String
  newStatus : String
  eventSummary : Option String
deriving Repr, DecidableEq

/-- The date range of a `PendingInvitesResponse`.  The source field `end` is
named `stop` (`end` is reserved in Lean). -/
structure DateRange where
  start : String
  stop : String
deriving Repr, DecidableEq

/-- `PendingInvitesResponse` as constructed by `getPendingInvites`. -/
structure PendingInvitesResponse where
  invites : List PendingInvite
  dateRange : DateRange
  totalCount : Nat
deriving Repr, DecidableEq

/-- Arguments of the `respond_to_invite` tool, possibly absent. -/
structure RespondArgs where
  event_id : Option String
  response : Option String
deriving Repr, DecidableEq

/-- Arguments of the `get_pending_reservations` tool. -/
structure GetPendingArgs where
  start_date : Option String
  end_date : Option String
deriving Repr, DecidableEq

/-- The enum-membership check
`['accepted', 'declined', 'tentative'].includes(args.response)`. -/
def validRespondValue (response : Option String) : Bool :=
  match response with
  | none => false
  | some r => ["accepted", "declined", "tentative"].contains r

/-- The past-tense action word used in the success text. -/
def respondActionText (response : String) : String :=
  if response = "accepted" then "accepted"
  else if response = "declined" then "declined"
  else "marked as tentative"

/-- `handleRespondToInvite` (`mcp-server.ts` lines 239–294): validate
`event_id`, then the `response` enum, then authentication, and only then call
the calendar adapter (`respondToInvite`, an explicit parameter).  The second
component of the result records whether the adapter was invoked. -/
def handleRespondToInvite (args : RespondArgs) (userId : String)
    (isAuthenticated : String → Bool)
    (adapter : String → String → Except String RespondToInviteResponse) :
    AppsToolResponse × Bool :=
  if jsTruthyStr args.event_id = false then
    ({ contentText := "Error: event_id is required",
       structuredContent := { error := some "event_id is required", success := some false },
       metaOutputTemplate := none, isError := true }, false)
  else if validRespondValue args.response = false then
    ({ contentText := "Error: response must be accepted, declined, or tentative",
       structuredContent := { error := some "Invalid response value", success := some false },
       metaOutputTemplate := none, isError := true }, false)
  else if isAuthenticated userId = false then
    ({ contentText := "User needs to authenticate first.",
       structuredContent := { authRequired := some true, authUrl := some (getAuthUrl userId),
                              success := some false },
       metaOutputTemplate := none, isError := true }, false)
  else
    match adapter (args.event_id.getD "") (args.response.getD "") with
    | .ok result =>
      ({ contentText := "Successfully " ++ respondActionText (args.response.getD "")
           ++ " the invitation.",
         structuredContent := { success := some true, response := args.response,
                                eventId := args.event_id, message := some result.message,
                                eventSummary := result.eventSummary },
         metaOutputTemplate := some "ui://widget/calendar-widget.html", isError := false }, true)
    | .error msg =>
      ({ contentText := "Error: " ++ msg,
         structuredContent := { error := some msg, success := some false },
         metaOutputTemplate := none, isError := true }, true)

/-- `handleGetPendingReservations` (`mcp-server.ts` lines 187–234): an
unauthenticated user receives the structured authorization-required payload
with a consent URL and no adapter call; otherwise the calendar adapter
(`getPendingInvites`, an explicit parameter) is consulted.  The second
component of the result records whether the adapter was invoked. -/
def handleGetPendingReservations (args : GetPendingArgs) (userId : String)
    (isAuthenticated : String → Bool)
    (adapter : Option String → Option String → Except String PendingInvitesResponse) :
    AppsToolResponse × Bool :=
  if isAuthenticated userId = false then
    ({ contentText := "User needs to authenticate with Google Calendar.",
       structuredContent := { authRequired := some true, authUrl := some (getAuthUrl userId) },
       metaOutputTemplate := some "ui://widget/calendar-widget.html", isError := false }, false)
  else
    match adapter args.start_date args.end_date with
    | .ok result =>
      ({ contentText := if 0 < result.invites.length then
           "Found " ++ toString result.invites.length ++ " pending invitation(s)."
         else "No pending invitations found.",
         structuredContent := { invites := some result.invites,
                                dateRangeStart := some result.dateRange.start,
                                dateRangeEnd := some result.dateRange.stop,
                                totalCount := some result.totalCount },
         metaOutputTemplate := some "ui://widget/calendar-widget.html", isError := false }, true)
    | .error msg =>
      ({ contentText := "Error: " ++ msg,
         structuredContent := { error := some msg },
         metaOutputTemplate := none, isError := true }, true)

/-! ## resources/read (`server/src/mcp-server.ts` lines 66–75 and 543–565) -/

/-- One entry of a `resources/read` result. -/
structure ResourceContent where
  uri : String
  mimeType : String
  text : String
deriving Repr, DecidableEq

/-- A `resources/read` result. -/
structure ResourcesReadResult where
  contents : List ResourceContent
deriving Repr, DecidableEq

/-- The regex test `uri.match(/^ui:\/\/widget\/(.+\.html)$/)`: the capture
group is everything after the `ui://widget/` scheme — it must end in `.html`,
have at least one character before it, and (since `.` in a JS regex matches
neither `\n` nor `\r`) contain no line break. -/
def matchWidgetUri (uri : String) : Option String :=
  if strStartsWith uri "ui://widget/" then
    let rest := strDrop uri 12
    if strEndsWith rest ".html" && decide (6 ≤ strLength rest)
        && !(strContainsChar rest '\n') && !(strContainsChar rest '\r') then
      some rest
    else none
  else none

/-- JS `s.replace(pat, repl)` with a string pattern: replace the first
occurrence only. -/
def replaceFirst (s pat repl : String) : String :=
  match splitOnChars pat.data s.data with
  | [] => s
  | [_] => s
  | p :: ps => ⟨p ++ repl.data ++ List.intercalate pat.data ps⟩

/-- `readWidgetContent` (`mcp-server.ts` lines 66–75): read the packaged
widget file (the filesystem is an explicit parameter: `none` = file does not
exist); a missing file falls back to a not-found HTML document. -/
def readWidgetContent (readFile : String → Option String) (widgetName : String) : String :=
  match readFile widgetName with
  | some content => content
  | none => "<html><body><h1>Widget not found: " ++ widgetName ++ "</h1></body></html>"

/-- The `resources/read` case of `handleMCPRequest` (`mcp-server.ts` lines
543–565): a matching `ui://widget/<name>.html` URI is answered with one
content entry; anything else with an empty `contents` list. -/
def resourcesRead (readFile : String → Option String) (uri : String) : ResourcesReadResult :=
  match matchWidgetUri uri with
  | some m =>
    let widgetName := replaceFirst m ".html" ""
    { contents := [{ uri := uri, mimeType := "text/html+skybridge",
                     text := readWidgetContent readFile widgetName }] }
  | none => { contents := [] }

/-! ## Concrete instances used by the witnesses -/

/-- A live, unconsumed authorization-code record. -/
def wRecord : AuthCodeRecord :=
  { clientId := "cid-1", redirectUri := "https://host/cb", codeChallenge := none,
    codeChallengeMethod := none, scope := none, issuedAt := 0, expiresAt := 100,
    consumed := false }

/-- A one-code store holding `wRecord` under code `"abc"`. -/
def wStore : CodeStore :=
  fun c => if c = "abc" then some wRecord else none

/-- A sample attendee matching user email `bob@x.com`. -/
def wAttendeeBob : EventAttendee :=
  { email := some "Bob@X.com", displayName := some "Bob", responseStatus := some "needsAction",
    organizer := none, self := some true }

/-- A sample attendee not matching user email `bob@x.com`. -/
def wAttendeeCarol : EventAttendee :=
  { email := some "carol@x.com", displayName := none, responseStatus := some "accepted",
    organizer := some true, self := none }

/-- A sample event in which `bob@x.com` is a pending non-organizing attendee. -/
def wEvent : GCalEvent :=
  { id := some "ev1", summary := some "Standup", description := none, location := none,
    start := some { dateTime := some "2026-10-12T09:00:00Z", date := none },
    eventEnd := some { dateTime := some "2026-10-12T09:30:00Z", date := none },
    organizer := some { email := some "carol@x.com", displayName := some "Carol" },
    attendees := some [wAttendeeCarol, wAttendeeBob],
    htmlLink := some "https://cal/ev1" }

/-- A later sample event, also pending for `bob@x.com`. -/
def wEvent2 : GCalEvent :=
  { id := some "ev2", summary := some "Review", description := none, location := none,
    start := some { dateTime := some "2026-10-13T10:00:00Z", date := none },
    eventEnd := some { dateTime := some "2026-10-13T11:00:00Z", date := none },
    organizer := some { email := some "carol@x.com", displayName := none },
    attendees := some [wAttendeeBob],
    htmlLink := none }

/-! ## Helper lemmas -/

/-- A consumed record never passes `consumeCheck`. -/
theorem consumeCheck_of_consumed (transform : String → String) (now : Nat)
    (clientId redirectUri : String) (codeVerifier : Option String)
    (r : AuthCodeRecord) (h : r.consumed = true) :
    (consumeCheck transform now clientId redirectUri codeVerifier r).isSome = true := by
  unfold consumeCheck
  by_cases hexp : r.expiresAt ≤ now
  · simp [hexp]
  · simp [hexp, h]

/-- A successful validation marks exactly the presented code as consumed. -/
theorem validate_success_marks_consumed (store : CodeStore) (transform : String → String)
    (now : Nat) (code clientId redirectUri : String) (codeVerifier : Option String)
    (h : (validateAuthorizationCode store transform now code clientId redirectUri codeVerifier).1.valid = true) :
    ∃ r : AuthCodeRecord,
      (validateAuthorizationCode store transform now code clientId redirectUri codeVerifier).2 code
        = some { r with consumed := true } := by
  unfold validateAuthorizationCode at h ⊢
  cases hs : store code with
  | none => simp [hs] at h
  | some r =>
    cases hc : consumeCheck transform now clientId redirectUri codeVerifier r with
    | some e => simp [hs, hc] at h
    | none =>
      refine ⟨r, ?_⟩
      simp [hs, hc, markConsumed]

/-- If the store holds the code as already consumed, validation fails. -/
theorem validate_fails_on_consumed (store : CodeStore) (transform : String → String)
    (now : Nat) (code clientId redirectUri : String) (codeVerifier : Option String)
    (r : AuthCodeRecord) (hs : store code = some r) (hc : r.consumed = true) :
    (validateAuthorizationCode store transform now code clientId redirectUri codeVerifier).1.valid = false := by
  unfold validateAuthorizationCode
  have hsome := consumeCheck_of_consumed transform now clientId redirectUri codeVerifier r hc
  cases hcc : consumeCheck transform now clientId redirectUri codeVerifier r with
  | none => rw [hcc] at hsome; simp at hsome
  | some e => simp [hs, hcc]

/-! ## C1: an authorization code is single-use -/

/-- C1: after one successful `grant_type=authorization_code` exchange at
POST /oauth/token, any second exchange presenting the same code — whatever
client id, redirect URI (present), verifier, clock or token generator it
uses — fails with HTTP 400 `invalid_grant`. -/
theorem authorization_code_single_use
    (store : CodeStore) (transform transform' : String → String) (now now' : Nat)
    (acid acid' : Option String) (c ru : String) (ru' cv cv' : Option String)
    (gen gen' : String → String) (t : String)
    (h1 : (oauthTokenAuthCode store transform now acid (some c) (some ru) cv gen).1
        = .tokenResp t)
    (h2 : jsTruthyStr ru' = true) :
    ∃ d, (oauthTokenAuthCode
        (oauthTokenAuthCode store transform now acid (some c) (some ru) cv gen).2
        transform' now' acid' (some c) ru' cv' gen').1
      = .errorResp 400 "invalid_grant" d := by
  cases hcode : jsTruthyStr (some c) with
  | false => simp [oauthTokenAuthCode, hcode] at h1
  | true =>
    cases hru : jsTruthyStr (some ru) with
    | false => simp [oauthTokenAuthCode, hcode, hru] at h1
    | true =>
      cases hvalid : (validateAuthorizationCode store transform now c
          (jsOrStr acid "") ru cv).1.valid with
      | false => simp [oauthTokenAuthCode, hcode, hru, hvalid] at h1
      | true =>
        obtain ⟨r, hr⟩ := validate_success_marks_consumed store transform now c
          (jsOrStr acid "") ru cv hvalid
        have hfail := validate_fails_on_consumed
          ((validateAuthorizationCode store transform now c (jsOrStr acid "") ru cv).2)
          transform' now' c (jsOrStr acid' "") (ru'.getD "") cv'
          { r with consumed := true } hr rfl
        refine ⟨jsOrStr (validateAuthorizationCode
            ((validateAuthorizationCode store transform now c (jsOrStr acid "") ru cv).2)
            transform' now' c (jsOrStr acid' "") (ru'.getD "") cv').1.reason
          "Invalid authorization code", ?_⟩
        simp [oauthTokenAuthCode, hcode, hru, hvalid, h2, hfail]

/-- Witness for C1 at a concrete store, code and pair of exchanges. -/
theorem authorization_code_single_use_witness :
    ∃ d, (oauthTokenAuthCode
        (oauthTokenAuthCode wStore id 0 (some "cid-1") (some "abc") (some "https://host/cb")
          none (fun _ => "tok-1")).2
        id 50 none (some "abc") (some "https://other/cb") none (fun _ => "tok-2")).1
      = .errorResp 400 "invalid_grant" d :=
  authorization_code_single_use wStore id id 0 50 (some "cid-1") none "abc" "https://host/cb"
    (some "https://other/cb") none none (fun _ => "tok-1") (fun _ => "tok-2") "tok-1"
    (by decide) (by decide)

/-! ## C10: body credentials take precedence over Basic-header credentials -/

/-- C10: at POST /oauth/token, body `client_id` / `client_secret` values win
when truthy; the Basic-header values fill in only whichever field is absent
or empty in the body, each field independently; without a Basic header the
body values are used as-is. -/
theorem token_body_credentials_precedence
    (bodyClientId bodyClientSecret authHeader : Option String)
    (decodeBase64 : String → String) :
    (jsTruthyStr bodyClientId = true →
      (mergeBasicCredentials bodyClientId bodyClientSecret authHeader decodeBase64).1
        = bodyClientId)
    ∧ (jsTruthyStr bodyClientSecret = true →
      (mergeBasicCredentials bodyClientId bodyClientSecret authHeader decodeBase64).2
        = bodyClientSecret)
    ∧ (∀ h, authHeader = some h → strStartsWith h "Basic " = true →
        (jsTruthyStr bodyClientId = false →
          (mergeBasicCredentials bodyClientId bodyClientSecret authHeader decodeBase64).1
            = (splitBasicCredentials (decodeBase64 (strDrop h 6))).1)
        ∧ (jsTruthyStr bodyClientSecret = false →
          (mergeBasicCredentials bodyClientId bodyClientSecret authHeader decodeBase64).2
            = (splitBasicCredentials (decodeBase64 (strDrop h 6))).2))
    ∧ (authHeader = none →
        mergeBasicCredentials bodyClientId bodyClientSecret authHeader decodeBase64
          = (bodyClientId, bodyClientSecret))
    ∧ (∀ h, authHeader = some h → strStartsWith h "Basic " = false →
        mergeBasicCredentials bodyClientId bodyClientSecret authHeader decodeBase64
          = (bodyClientId, bodyClientSecret)) := by
  refine ⟨?_, ?_, ?_, ?_, ?_⟩
  · intro ht
    cases authHeader with
    | none => simp [mergeBasicCredentials]
    | some h =>
      by_cases hb : strStartsWith h "Basic "
      · simp [mergeBasicCredentials, hb, jsOrOpt, ht]
      · simp [mergeBasicCredentials, hb]
  · intro ht
    cases authHeader with
    | none => simp [mergeBasicCredentials]
    | some h =>
      by_cases hb : strStartsWith h "Basic "
      · simp [mergeBasicCredentials, hb, jsOrOpt, ht]
      · simp [mergeBasicCredentials, hb]
  · intro h hh hb
    subst hh
    constructor
    · intro hf; simp [mergeBasicCredentials, hb, jsOrOpt, hf]
    · intro hf; simp [mergeBasicCredentials, hb, jsOrOpt, hf]
  · intro hh; subst hh; simp [mergeBasicCredentials]
  · intro h hh hb; subst hh; simp [mergeBasicCredentials, hb]

/-- Witness for C10: a truthy body `client_id` beats the header value, while
the absent body `client_secret` falls back to the header value. -/
theorem token_body_credentials_precedence_witness :
    (mergeBasicCredentials (some "body-id") none (some "Basic XYZ")
        (fun _ => "hdr-id:hdr-secret")).1 = some "body-id"
    ∧ (mergeBasicCredentials (some "body-id") none (some "Basic XYZ")
        (fun _ => "hdr-id:hdr-secret")).2 = some "hdr-secret" := by
  obtain ⟨h1, _, h3, _, _⟩ := token_body_credentials_precedence (some "body-id") none
    (some "Basic XYZ") (fun _ => "hdr-id:hdr-secret")
  refine ⟨h1 (by decide), ?_⟩
  have h := (h3 "Basic XYZ" rfl (by decide)).2 (by decide)
  rw [h]
  decide

/-! ## C2: POST /mcp rejects missing/invalid bearer tokens with a 401 challenge -/

/-- C2: when the Authorization header yields no truthy bearer token or the
token fails `validateAccessToken`, POST /mcp answers 401 with the
`WWW-Authenticate` challenge carrying the issuer URI and a JSON-RPC error
body with code -32001, and the dispatcher is never consulted (the outcome is
the same for every dispatcher). -/
theorem mcp_unauthorized {α β : Type} (baseUrl : String) (validateAccessToken : String → Bool)
    (dispatcher : String → β → Except String α) (authHeader : Option String)
    (method : Option String) (params : β) (id : Option JVal) (jsonrpc : Option String)
    (hfail : jsTruthyStr (extractBearerToken authHeader) = false
      ∨ validateAccessToken ((extractBearerToken authHeader).getD "") = false) :
    mcpPost baseUrl validateAccessToken dispatcher authHeader method params id jsonrpc
      = .unauthorized 401
          ("Bearer resource=\"" ++ baseUrl ++ "/mcp\", as_uri=\"" ++ baseUrl ++ "\"")
          (-32001) "Unauthorized: Invalid or missing access token" (jsOrNull id)
    ∧ (∃ pre post,
        ("Bearer resource=\"" ++ baseUrl ++ "/mcp\", as_uri=\"" ++ baseUrl ++ "\"")
          = pre ++ baseUrl ++ post)
    ∧ (∀ dispatcher₂ : String → β → Except String α,
        mcpPost baseUrl validateAccessToken dispatcher authHeader method params id jsonrpc
          = mcpPost baseUrl validateAccessToken dispatcher₂ authHeader method params id jsonrpc) := by
  have hcond : (jsTruthyStr (extractBearerToken authHeader)
      && validateAccessToken ((extractBearerToken authHeader).getD "")) = false := by
    rcases hfail with h | h <;> simp [h]
  refine ⟨?_, ⟨"Bearer resource=\"", "/mcp\", as_uri=\"" ++ baseUrl ++ "\"",
    by simp [String.append_assoc]⟩, ?_⟩
  · simp [mcpPost, hcond]
  · intro dispatcher₂
    simp [mcpPost, hcond]

/-- Witness for C2: no Authorization header at all. -/
theorem mcp_unauthorized_witness :
    mcpPost "https://srv" (fun _ => false) (fun _ (_ : Unit) => Except.ok (0 : Nat)) none
      (some "tools/list") () (some (.num 3)) none
      = .unauthorized 401 "Bearer resource=\"https://srv/mcp\", as_uri=\"https://srv\""
          (-32001) "Unauthorized: Invalid or missing access token" (.num 3) := by
  rw [(mcp_unauthorized "https://srv" (fun _ => false) (fun _ (_ : Unit) => Except.ok (0 : Nat))
    none (some "tools/list") () (some (.num 3)) none (Or.inl (by decide))).1]
  decide

/-! ## C7: request-id and protocol-version echo -/

/-- C7 counterexample: a POST /mcp request whose JSON-RPC id is the number
`0` is answered with id `null`, not `0` (`id || null` treats `0` as falsy),
so the response does not carry the caller-supplied identifier. -/
theorem mcp_id_zero_counterexample :
    mcpPost "https://srv" (fun _ => true) (fun _ (_ : Unit) => Except.ok "pong")
        (some "Bearer tok") (some "ping") () (some (.num 0)) none
      = .success { jsonrpc := "2.0", result := "pong", id := JVal.null }
    ∧ JVal.null ≠ JVal.num 0 := by
  constructor
  · decide
  · decide

/-- C7 (amended): every POST /mcp response (success or error) carries
`id || null`: the caller-supplied id whenever it is truthy (a non-zero
number, non-empty string or `true`), and `null` otherwise; the initialize
result carries the caller-supplied `protocolVersion` whenever it is a
non-empty string (an absent or empty one is replaced by `2024-11-05`). -/
theorem mcp_id_echo_amended {α β : Type} (baseUrl : String)
    (validateAccessToken : String → Bool) (dispatcher : String → β → Except String α)
    (authHeader : Option String) (method : Option String) (params : β)
    (id : Option JVal) (jsonrpc : Option String) :
    (mcpPost baseUrl validateAccessToken dispatcher authHeader method params id jsonrpc).idEchoOf
      = jsOrNull id
    ∧ (∀ v, id = some v → jsTruthy v = true →
        (mcpPost baseUrl validateAccessToken dispatcher authHeader method params id
          jsonrpc).idEchoOf = v)
    ∧ (∀ pv : String, pv ≠ "" → (mcpInitialize (some pv)).protocolVersion = pv) := by
  have hmain : (mcpPost baseUrl validateAccessToken dispatcher authHeader method params id
      jsonrpc).idEchoOf = jsOrNull id := by
    unfold mcpPost
    by_cases h1 : (jsTruthyStr (extractBearerToken authHeader)
        && validateAccessToken ((extractBearerToken authHeader).getD "")) = false
    · simp [h1, McpOutcome.idEchoOf]
    · by_cases h2 : jsTruthyStr method = false
      · simp [h1, h2, McpOutcome.idEchoOf]
      · cases hd : dispatcher (method.getD "") params <;>
          simp [h1, h2, hd, McpOutcome.idEchoOf]
  refine ⟨hmain, ?_, ?_⟩
  · intro v hv ht
    rw [hmain, hv]
    simp [jsOrNull, ht]
  · intro pv hpv
    simp [mcpInitialize, jsOrStr, hpv]

/-- Witness for the amended C7: a truthy id `7` is echoed, and a non-empty
protocol version is echoed. -/
theorem mcp_id_echo_amended_witness :
    (mcpPost "https://srv" (fun _ => true) (fun _ (_ : Unit) => Except.ok "pong")
        (some "Bearer tok") (some "ping") () (some (.num 7)) none).idEchoOf = .num 7
    ∧ (mcpInitialize (some "2025-06-18")).protocolVersion = "2025-06-18" := by
  obtain ⟨h1, h2, h3⟩ := mcp_id_echo_amended "https://srv" (fun _ => true)
    (fun _ (_ : Unit) => Except.ok "pong") (some "Bearer tok") (some "ping") ()
    (some (.num 7)) none
  exact ⟨h2 (.num 7) rfl (by decide), h3 "2025-06-18" (by decide)⟩

/-! ## C3: the authorize endpoint contract -/

/-- C3 counterexample: with a registered client, `response_type=code`, a good
redirect URI and a supplied-but-empty `state`, the response is a redirect
whose query carries only the code — the supplied `state` is not echoed
(`if (state)` treats the empty string as absent). -/
theorem authorize_empty_state_counterexample :
    oauthAuthorize ["c1"] "fresh-code"
      { client_id := some "c1", redirect_uri := some "https://host/cb",
        response_type := some "code", state := some "", code_challenge := none,
        code_challenge_method := none, scope := none }
      = .redirectResp "https://host/cb" [("code", "fresh-code")]
    ∧ (∀ v, ("state", v) ∉ [("code", "fresh-code")]) := by
  constructor
  · decide
  · intro v h
    rw [List.mem_singleton] at h
    have hne : "state" = "code" := congrArg Prod.fst h
    exact absurd hne (by decide)

/-- C3 (amended): GET /oauth/authorize answers `invalid_client` when
`client_id` is missing, empty or unregistered; then
`unsupported_response_type` when `response_type` is not `code`; then
`invalid_request` when `redirect_uri` is missing or empty; otherwise it
redirects to `redirect_uri` with the freshly generated code as the `code`
query parameter and, exactly when a non-empty `state` was supplied, that
`state` echoed back unmodified. -/
theorem oauth_authorize_contract (registry : List String) (genCode : String)
    (q : AuthorizeQuery) :
    ((q.client_id = none ∨ q.client_id = some ""
        ∨ validateClientId registry (q.client_id.getD "") = false) →
      oauthAuthorize registry genCode q
        = .errorResp 400 "invalid_client" "Unknown or invalid client_id")
    ∧ (∀ cid, q.client_id = some cid → cid ≠ "" → validateClientId registry cid = true →
        q.response_type ≠ some "code" →
        oauthAuthorize registry genCode q
          = .errorResp 400 "unsupported_response_type"
              "Only \"code\" response type is supported")
    ∧ (∀ cid, q.client_id = some cid → cid ≠ "" → validateClientId registry cid = true →
        q.response_type = some "code" → jsTruthyStr q.redirect_uri = false →
        oauthAuthorize registry genCode q
          = .errorResp 400 "invalid_request" "redirect_uri is required")
    ∧ (∀ cid ru, q.client_id = some cid → cid ≠ "" → validateClientId registry cid = true →
        q.response_type = some "code" → q.redirect_uri = some ru → ru ≠ "" →
        ∀ st, q.state = some st → st ≠ "" →
        oauthAuthorize registry genCode q
          = .redirectResp ru [("code", genCode), ("state", st)])
    ∧ (∀ cid ru, q.client_id = some cid → cid ≠ "" → validateClientId registry cid = true →
        q.response_type = some "code" → q.redirect_uri = some ru → ru ≠ "" →
        jsTruthyStr q.state = false →
        oauthAuthorize registry genCode q
          = .redirectResp ru [("code", genCode)]) := by
  refine ⟨?_, ?_, ?_, ?_, ?_⟩
  · rintro (h | h | h)
    · simp [oauthAuthorize, h, jsTruthyStr]
    · simp [oauthAuthorize, h, jsTruthyStr]
    · by_cases ht : jsTruthyStr q.client_id = true
      · simp [oauthAuthorize, ht, h]
      · simp only [Bool.not_eq_true] at ht
        simp [oauthAuthorize, ht]
  · intro cid hcid hne hreg hrt
    have ht : jsTruthyStr (some cid) = true := by simp [jsTruthyStr, hne]
    simp [oauthAuthorize, ht, hcid, hreg, hrt]
  · intro cid hcid hne hreg hrt hru
    have ht : jsTruthyStr (some cid) = true := by simp [jsTruthyStr, hne]
    simp [oauthAuthorize, ht, hcid, hreg, hrt, hru]
  · intro cid ru hcid hne hreg hrt hru hrune st hst hstne
    have ht : jsTruthyStr (some cid) = true := by simp [jsTruthyStr, hne]
    have htr : jsTruthyStr (some ru) = true := by simp [jsTruthyStr, hrune]
    have hts : jsTruthyStr (some st) = true := by simp [jsTruthyStr, hstne]
    simp [oauthAuthorize, ht, hcid, hreg, hrt, hru, htr, hst, hts]
  · intro cid ru hcid hne hreg hrt hru hrune hstf
    have ht : jsTruthyStr (some cid) = true := by simp [jsTruthyStr, hne]
    have htr : jsTruthyStr (some ru) = true := by simp [jsTruthyStr, hrune]
    simp [oauthAuthorize, ht, hcid, hreg, hrt, hru, htr, hstf]

/-- Witness for the amended C3: a fully populated request redirects with the
code and the non-empty state echoed. -/
theorem oauth_authorize_contract_witness :
    oauthAuthorize ["c1"] "fresh-code"
      { client_id := some "c1", redirect_uri := some "https://host/cb",
        response_type := some "code", state := some "xyz", code_challenge := none,
        code_challenge_method := none, scope := none }
      = .redirectResp "https://host/cb" [("code", "fresh-code"), ("state", "xyz")] := by
  obtain ⟨_, _, _, h4, _⟩ := oauth_authorize_contract ["c1"] "fresh-code"
    { client_id := some "c1", redirect_uri := some "https://host/cb",
      response_type := some "code", state := some "xyz", code_challenge := none,
      code_challenge_method := none, scope := none }
  exact h4 "c1" "https://host/cb" rfl (by decide) (by decide) rfl rfl (by decide)
    "xyz" rfl (by decide)

/-! ## C5: respond_to_invite validates before authentication and the adapter -/

/-- C5: when `event_id` is missing/empty or `response` is outside
{accepted, declined, tentative}, `handleRespondToInvite` returns a structured
validation error (`isError`, an `error` field, `success: false`), the adapter
is never invoked, and the outcome is identical for every authentication state
and every adapter — validation runs before both. -/
theorem respond_to_invite_validates_first (args : RespondArgs) (userId : String)
    (isAuthenticated : String → Bool)
    (adapter : String → String → Except String RespondToInviteResponse)
    (hbad : jsTruthyStr args.event_id = false ∨ validRespondValue args.response = false) :
    (handleRespondToInvite args userId isAuthenticated adapter).2 = false
    ∧ (handleRespondToInvite args userId isAuthenticated adapter).1.isError = true
    ∧ (handleRespondToInvite args userId isAuthenticated
        adapter).1.structuredContent.error.isSome = true
    ∧ (handleRespondToInvite args userId isAuthenticated
        adapter).1.structuredContent.success = some false
    ∧ (∀ (isAuth₂ : String → Bool)
        (adapter₂ : String → String → Except String RespondToInviteResponse),
        handleRespondToInvite args userId isAuthenticated adapter
          = handleRespondToInvite args userId isAuth₂ adapter₂) := by
  rcases hbad with h | h
  · refine ⟨?_, ?_, ?_, ?_, ?_⟩ <;> simp [handleRespondToInvite, h]
  · by_cases h1 : jsTruthyStr args.event_id = false
    · refine ⟨?_, ?_, ?_, ?_, ?_⟩ <;> simp [handleRespondToInvite, h1]
    · refine ⟨?_, ?_, ?_, ?_, ?_⟩ <;> simp [handleRespondToInvite, h1, h]

/-- Witness for C5: a call with no `event_id`, an authenticated user and an
adapter that would fail loudly. -/
theorem respond_to_invite_validates_first_witness :
    (handleRespondToInvite { event_id := none, response := some "accepted" } "default"
      (fun _ => true) (fun _ _ => Except.error "adapter reached")).2 = false
    ∧ (handleRespondToInvite { event_id := none, response := some "accepted" } "default"
      (fun _ => true) (fun _ _ => Except.error "adapter reached")).1.isError = true
    ∧ handleRespondToInvite { event_id := none, response := some "accepted" } "default"
        (fun _ => true) (fun _ _ => Except.error "adapter reached")
      = handleRespondToInvite { event_id := none, response := some "accepted" } "default"
        (fun _ => false) (fun _ _ => Except.ok
          { success := true, message := "", eventId := "", newStatus := "",
            eventSummary := none }) := by
  obtain ⟨h1, h2, _, _, h5⟩ := respond_to_invite_validates_first
    { event_id := none, response := some "accepted" } "default" (fun _ => true)
    (fun _ _ => Except.error "adapter reached") (Or.inl (by decide))
  exact ⟨h1, h2, h5 (fun _ => false) (fun _ _ => Except.ok
    { success := true, message := "", eventId := "", newStatus := "", eventSummary := none })⟩

/-! ## C6: get_pending_reservations without calendar authorization -/

/-- C6: when the subject's calendar authorization is absent,
`handleGetPendingReservations` returns a non-error result whose structured
content is exactly `authRequired: true` with the non-empty consent URL, and
the calendar-read adapter is never invoked (the outcome is identical for
every adapter). -/
theorem get_pending_reservations_auth_required (args : GetPendingArgs) (userId : String)
    (isAuthenticated : String → Bool)
    (adapter : Option String → Option String → Except String PendingInvitesResponse)
    (hauth : isAuthenticated userId = false) :
    handleGetPendingReservations args userId isAuthenticated adapter
      = ({ contentText := "User needs to authenticate with Google Calendar.",
           structuredContent := { authRequired := some true, authUrl := some (getAuthUrl userId) },
           metaOutputTemplate := some "ui://widget/calendar-widget.html",
           isError := false }, false)
    ∧ getAuthUrl userId ≠ ""
    ∧ (∀ adapter₂ : Option String → Option String → Except String PendingInvitesResponse,
        handleGetPendingReservations args userId isAuthenticated adapter
          = handleGetPendingReservations args userId isAuthenticated adapter₂) := by
  refine ⟨by simp [handleGetPendingReservations, hauth], ?_,
    fun adapter₂ => by simp [handleGetPendingReservations, hauth]⟩
  intro hcontra
  have h0 : (getAuthUrl userId).length = 0 := by rw [hcontra]; rfl
  rw [getAuthUrl, String.length_append] at h0
  have hpos : 0 < ("https://accounts.google.com/o/oauth2/v2/auth?state=" : String).length := by
    decide
  omega

/-- Witness for C6: an unauthenticated user and an adapter that would fail. -/
theorem get_pending_reservations_auth_required_witness :
    handleGetPendingReservations { start_date := none, end_date := none } "default"
        (fun _ => false) (fun _ _ => Except.error "adapter reached")
      = ({ contentText := "User needs to authenticate with Google Calendar.",
           structuredContent :=
             { authRequired := some true,
               authUrl := some "https://accounts.google.com/o/oauth2/v2/auth?state=default" },
           metaOutputTemplate := some "ui://widget/calendar-widget.html",
           isError := false }, false) := by
  rw [(get_pending_reservations_auth_required { start_date := none, end_date := none } "default"
    (fun _ => false) (fun _ _ => Except.error "adapter reached") rfl).1]
  decide

/-! ## C9: resources/read for unrecognised URIs and missing widget files -/

/-- C9: a `resources/read` whose URI does not match `ui://widget/<name>.html`
yields an empty `contents` list; a matching URI whose widget file is absent
yields a single (non-empty) content entry holding the not-found fallback
HTML document naming the widget. -/
theorem resources_read_contract (readFile : String → Option String) (uri : String) :
    (matchWidgetUri uri = none → resourcesRead readFile uri = { contents := [] })
    ∧ (∀ m, matchWidgetUri uri = some m →
        readFile (replaceFirst m ".html" "") = none →
        resourcesRead readFile uri
          = { contents := [{ uri := uri, mimeType := "text/html+skybridge",
                             text := "<html><body><h1>Widget not found: "
                               ++ replaceFirst m ".html" "" ++ "</h1></body></html>" }] }
        ∧ (resourcesRead readFile uri).contents ≠ []) := by
  constructor
  · intro h
    simp [resourcesRead, h]
  · intro m hm hf
    constructor
    · simp [resourcesRead, hm, readWidgetContent, hf]
    · simp [resourcesRead, hm]

/-- Witness for C9: the calendar widget URI with an empty filesystem. -/
theorem resources_read_contract_witness :
    resourcesRead (fun _ => none) "ui://widget/calendar-widget.html"
      = { contents := [{ uri := "ui://widget/calendar-widget.html",
                         mimeType := "text/html+skybridge",
                         text := "<html><body><h1>Widget not found: calendar-widget</h1></body></html>" }] } := by
  have h := (resources_read_contract (fun _ => none) "ui://widget/calendar-widget.html").2
    "calendar-widget.html" (by decide) rfl
  rw [h.1]
  decide

/-! ## C4: pending invites are actionable for the user and sorted -/

/-- The `startTime` of a produced invite is the formatted start of its event. -/
theorem eventToPendingInvite_startTime (e : GCalEvent) (userEmail : String)
    (inv : PendingInvite) (h : eventToPendingInvite e userEmail = some inv) :
    inv.startTime
      = (formatDateTime (e.start.getD { dateTime := none, date := none })).formatted := by
  unfold eventToPendingInvite at h
  by_cases h1 : (jsTruthyStr e.id && jsTruthyStr e.summary) = false
  · simp [h1] at h
  · simp only [h1, if_false, Bool.false_eq_true, if_neg, reduceCtorEq] at h
    cases hf : (e.attendees.getD []).find? (attendeeEmailMatches userEmail) with
    | none => simp [hf] at h
    | some ua =>
      simp only [hf] at h
      by_cases h2 : ua.organizer.getD false = true
      · simp [h2] at h
      · by_cases h3 : ua.responseStatus ≠ some "needsAction"
        · simp [h2, h3] at h
        · simp only [h2, h3] at h
          simp at h
          subst h
          rfl

/-- A produced invite's event has an attendee entry for the user (found by
the case-insensitive email search) that is not the organizer and still needs
action. -/
theorem eventToPendingInvite_userAttendee (e : GCalEvent) (userEmail : String)
    (inv : PendingInvite) (h : eventToPendingInvite e userEmail = some inv) :
    ∃ a ∈ e.attendees.getD [],
      attendeeEmailMatches userEmail a = true
      ∧ a.organizer.getD false = false
      ∧ a.responseStatus = some "needsAction" := by
  unfold eventToPendingInvite at h
  by_cases h1 : (jsTruthyStr e.id && jsTruthyStr e.summary) = false
  · simp [h1] at h
  · simp only [h1, if_false, Bool.false_eq_true, if_neg, reduceCtorEq] at h
    cases hf : (e.attendees.getD []).find? (attendeeEmailMatches userEmail) with
    | none => simp [hf] at h
    | some ua =>
      simp only [hf] at h
      by_cases h2 : ua.organizer.getD false = true
      · simp [h2] at h
      · by_cases h3 : ua.responseStatus ≠ some "needsAction"
        · simp [h2, h3] at h
        · refine ⟨ua, List.mem_of_find?_eq_some hf, List.find?_some hf, ?_, ?_⟩
          · exact Bool.eq_false_iff.mpr h2
          · exact not_not.mp h3

/-- C4: every invite returned by the `getPendingInvites` filter comes from a
fetched event holding an attendee entry for the user (matched by
case-insensitive email) that is not the organizer and has response status
`needsAction` — so organized and already-answered events never appear; and
when the fetched events arrive sorted by formatted start time (the Google
API is asked for `orderBy: 'startTime'`), the returned list is sorted by
`startTime` ascending. -/
theorem pending_invites_actionable_and_sorted (events : List GCalEvent) (userEmail : String) :
    (∀ inv ∈ pendingInvitesOf events userEmail,
      ∃ e ∈ events, eventToPendingInvite e userEmail = some inv
        ∧ ∃ a ∈ e.attendees.getD [],
            attendeeEmailMatches userEmail a = true
            ∧ a.organizer.getD false = false
            ∧ a.responseStatus = some "needsAction")
    ∧ (events.Pairwise (fun e₁ e₂ =>
          strLe (formatDateTime (e₁.start.getD { dateTime := none, date := none })).formatted
            (formatDateTime (e₂.start.getD { dateTime := none, date := none })).formatted
            = true) →
        (pendingInvitesOf events userEmail).Pairwise
          (fun i₁ i₂ => strLe i₁.startTime i₂.startTime = true)) := by
  constructor
  · intro inv hmem
    rw [pendingInvitesOf, List.mem_filterMap] at hmem
    obtain ⟨e, he, hfe⟩ := hmem
    exact ⟨e, he, hfe, eventToPendingInvite_userAttendee e userEmail inv hfe⟩
  · intro hsorted
    rw [pendingInvitesOf, List.pairwise_filterMap]
    refine List.Pairwise.imp ?_ hsorted
    intro e₁ e₂ hle b hb b' hb'
    rw [Option.mem_def] at hb hb'
    rw [eventToPendingInvite_startTime e₁ userEmail b hb,
        eventToPendingInvite_startTime e₂ userEmail b' hb']
    exact hle

/-- Witness for C4: two concrete pending events in API order come out sorted. -/
theorem pending_invites_actionable_and_sorted_witness :
    (pendingInvitesOf [wEvent, wEvent2] "bob@x.com").Pairwise
      (fun i₁ i₂ => strLe i₁.startTime i₂.startTime = true) :=
  (pending_invites_actionable_and_sorted [wEvent, wEvent2] "bob@x.com").2 (by decide)

/-! ## C8: respondToInvite rewrites only the user's own attendee entries -/

/-- C8: the attendee list written back by `respondToInvite` is pointwise
related to the fetched one — an entry whose email equals the calling user's
(case-insensitively) is changed exactly in its `responseStatus`, every other
entry is passed through unchanged (and the length is preserved, being a
`Forall₂`). -/
theorem respond_updates_only_user (attendees : List EventAttendee)
    (userEmail response : String) :
    List.Forall₂ (fun old new =>
        (attendeeEmailMatches userEmail old = true →
          new = { old with responseStatus := some response })
        ∧ (attendeeEmailMatches userEmail old = false → new = old))
      attendees (updatedAttendeesOf attendees userEmail response) := by
  induction attendees with
  | nil =>
    rw [updatedAttendeesOf, List.map_nil]
    exact List.Forall₂.nil
  | cons a l ih =>
    rw [updatedAttendeesOf, List.map_cons]
    refine List.Forall₂.cons ?_ ?_
    · constructor
      · intro h; simp [h]
      · intro h; simp [h]
    · exact ih

/-- Witness for C8 on a concrete attendee list: Bob's entry (case-insensitive
email match) is rewritten, Carol's is untouched. -/
theorem respond_updates_only_user_witness :
    List.Forall₂ (fun old new =>
        (attendeeEmailMatches "bob@x.com" old = true →
          new = { old with responseStatus := some "declined" })
        ∧ (attendeeEmailMatches "bob@x.com" old = false → new = old))
      [wAttendeeBob, wAttendeeCarol]
      (updatedAttendeesOf [wAttendeeBob, wAttendeeCarol] "bob@x.com" "declined") :=
  respond_updates_only_user [wAttendeeBob, wAttendeeCarol] "bob@x.com" "declined"
